import Mathlib

/-!
Shallow embedding of the boid simulation core (src/main.ts).

The source manipulates three.js `Vector3` values with JavaScript floating
point; here vectors are triples of real numbers, so `Math.sqrt` becomes
`Real.sqrt`, `Math.acos` becomes `Real.arccos`, and division by zero yields
the Lean junk value `0` (the instrumented `Checked` variants below make the
division-by-zero branches observable instead of silently returning junk).
`Math.random` and `Vector3.randomDirection` are platform primitives, not
repository code: every random draw the step consumes is passed in explicitly
as a `Draw` (a direction and a magnitude), following the specification's
injected-RNG design.
-/

namespace BoidSim

noncomputable section

open scoped Classical

/-- A three.js `Vector3`: three real components. -/
structure Vec3 where
  x : ℝ
  y : ℝ
  z : ℝ

theorem Vec3.ext_iff' (a b : Vec3) : a = b ↔ a.x = b.x ∧ a.y = b.y ∧ a.z = b.z := by
  constructor
  · intro h; subst h; exact ⟨rfl, rfl, rfl⟩
  · rintro ⟨hx, hy, hz⟩; cases a; cases b; simp_all

/-- `new Vector3()`: the zero vector. -/
def Vec3.zero : Vec3 := ⟨0, 0, 0⟩

/-- `Vector3.add`, componentwise. -/
def Vec3.add (a b : Vec3) : Vec3 := ⟨a.x + b.x, a.y + b.y, a.z + b.z⟩

instance : Add Vec3 := ⟨Vec3.add⟩

/-- `Vector3.subVectors` / `Vector3.sub`, componentwise. -/
def Vec3.sub (a b : Vec3) : Vec3 := ⟨a.x - b.x, a.y - b.y, a.z - b.z⟩

instance : Sub Vec3 := ⟨Vec3.sub⟩

/-- `Vector3.multiplyScalar`. -/
def Vec3.smul (c : ℝ) (v : Vec3) : Vec3 := ⟨c * v.x, c * v.y, c * v.z⟩

instance : SMul ℝ Vec3 := ⟨Vec3.smul⟩

@[simp] theorem Vec3.add_x (a b : Vec3) : (a + b).x = a.x + b.x := rfl
@[simp] theorem Vec3.add_y (a b : Vec3) : (a + b).y = a.y + b.y := rfl
@[simp] theorem Vec3.add_z (a b : Vec3) : (a + b).z = a.z + b.z := rfl
@[simp] theorem Vec3.sub_x (a b : Vec3) : (a - b).x = a.x - b.x := rfl
@[simp] theorem Vec3.sub_y (a b : Vec3) : (a - b).y = a.y - b.y := rfl
@[simp] theorem Vec3.sub_z (a b : Vec3) : (a - b).z = a.z - b.z := rfl
@[simp] theorem Vec3.smul_x (c : ℝ) (v : Vec3) : (c • v).x = c * v.x := rfl
@[simp] theorem Vec3.smul_y (c : ℝ) (v : Vec3) : (c • v).y = c * v.y := rfl
@[simp] theorem Vec3.smul_z (c : ℝ) (v : Vec3) : (c • v).z = c * v.z := rfl
@[simp] theorem Vec3.zero_x : Vec3.zero.x = 0 := rfl
@[simp] theorem Vec3.zero_y : Vec3.zero.y = 0 := rfl
@[simp] theorem Vec3.zero_z : Vec3.zero.z = 0 := rfl

/-- `Vector3.lengthSq`: the squared Euclidean norm. -/
def Vec3.normSq (v : Vec3) : ℝ := v.x ^ 2 + v.y ^ 2 + v.z ^ 2

/-- `Vector3.length`: the Euclidean norm. -/
def Vec3.length (v : Vec3) : ℝ := Real.sqrt v.normSq

/-- `Vector3.dot`. -/
def Vec3.dot (a b : Vec3) : ℝ := a.x * b.x + a.y * b.y + a.z * b.z

/-- `Vector3.distanceTo`: Euclidean distance between two points. -/
def Vec3.distanceTo (a b : Vec3) : ℝ := (a - b).length

/-- `Vector3.angleTo`: `acos(dot / sqrt(lengthSq * lengthSq))`.  When the
denominator is zero three.js returns `π/2`; here the quotient is the Lean junk
value `0` and `arccos 0 = π/2`, matching.  three.js clamps the quotient to
`[-1, 1]`, which `Real.arccos`'s own clamping reproduces. -/
def Vec3.angleTo (a b : Vec3) : ℝ :=
  Real.arccos (a.dot b / Real.sqrt (a.normSq * b.normSq))

/-- `Vector3.clampLength(minL, maxL)`:
`divideScalar(length || 1).multiplyScalar(max(minL, min(maxL, length)))`. -/
def Vec3.clampLength (v : Vec3) (minL maxL : ℝ) : Vec3 :=
  (max minL (min maxL v.length) / (if v.length = 0 then 1 else v.length)) • v

----------------------------------------------------------------
-- Constants (src/main.ts lines 23-37)
----------------------------------------------------------------

def X_LIM : ℝ := 135
def Y_LIM : ℝ := 73
def Z_LIM : ℝ := 75
def VELOCITY_LIM : ℝ := 1.5
def SEPARATION_RADIUS : ℝ := 15
def ALIGNMENT_RADIUS : ℝ := 60
def COHESION_RADIUS : ℝ := 70
def LIM_FACTOR : ℝ := 0.2
def SEPARATION_FACTOR : ℝ := 0.07
def ALIGNMENT_FACTOR : ℝ := 0.05
def COHESION_FACTOR : ℝ := 0.03
def NOISE_ANGLE : ℝ := Real.pi / 4
def NOISE_FACTOR : ℝ := 0.5
def INSECT_COUNT : ℕ := 100
def STEPS : ℕ := 1000

----------------------------------------------------------------
-- Agent state
----------------------------------------------------------------

/-- One simulated agent: the numeric state of a three.js `Mesh`.  `lookAt` is
modelled by storing the look-at target in `orientation` (a pure rendering
hint, per the spec). -/
structure Insect where
  id : ℕ
  position : Vec3
  orientation : Vec3

/-- One random draw, standing for a `Vector3.randomDirection()` direction and
a `Math.random() * VELOCITY_LIM` magnitude consumed by the noise correction. -/
structure Draw where
  dir : Vec3
  mag : ℝ

----------------------------------------------------------------
-- Helper functions (src/main.ts lines 41-124)
----------------------------------------------------------------

/-- `withinDistance insect1 insect2 range`: the distance between the two
insects is at most `range`. -/
def withinDistance (insect1 insect2 : Insect) (range : ℝ) : Prop :=
  insect1.position.distanceTo insect2.position ≤ range

/-- `getInsectsWithinDistance`: filter `insectList` for insects within
`range` of `mainInsect`.  (The source does not exclude `mainInsect` here;
the caller passes a list with it already removed.) -/
def getInsectsWithinDistance (mainInsect : Insect) (insectList : List Insect)
    (range : ℝ) : List Insect :=
  insectList.filter fun insect => decide (withinDistance mainInsect insect range)

/-- `calculateAverageVelocity`: sum the velocities (looked up by id in the
`insectVelocities` record) and divide by the list length.  On an empty list
the source divides by zero (producing NaN); here the junk value is the zero
vector — `...Checked` below keeps that branch observable. -/
def calculateAverageVelocity (insectList : List Insect)
    (insectVelocities : ℕ → Vec3) : Vec3 :=
  (1 / (insectList.length : ℝ)) •
    insectList.foldl (fun acc insect => acc + insectVelocities insect.id) Vec3.zero

/-- `calculateAveragePosition`: sum the positions and divide by the length. -/
def calculateAveragePosition (insectList : List Insect) : Vec3 :=
  (1 / (insectList.length : ℝ)) •
    insectList.foldl (fun acc insect => acc + insect.position) Vec3.zero

----------------------------------------------------------------
-- Algorithm functions (src/main.ts lines 127-285)
----------------------------------------------------------------

/-- `getCoherenceCorrection`: pull toward the average position of the
neighbors within `COHESION_RADIUS`; zero if there are none. -/
def getCoherenceCorrection (insect : Insect) (insectList : List Insect) : Vec3 :=
  let coherenceInsects := getInsectsWithinDistance insect insectList COHESION_RADIUS
  if 0 < coherenceInsects.length then
    COHESION_FACTOR • (calculateAveragePosition coherenceInsects - insect.position)
  else Vec3.zero

/-- `getSeparationCorrection`: push away from the average position of the
neighbors within `SEPARATION_RADIUS`; zero if there are none. -/
def getSeparationCorrection (insect : Insect) (insectList : List Insect) : Vec3 :=
  let separationInsects := getInsectsWithinDistance insect insectList SEPARATION_RADIUS
  if 0 < separationInsects.length then
    SEPARATION_FACTOR • (insect.position - calculateAveragePosition separationInsects)
  else Vec3.zero

/-- `getAlignmentCorrection`, exactly as the source behaves: the branch for a
non-empty neighbor set declares a NEW `const alignmentVector` that shadows the
outer one, so the scaled average velocity it computes is discarded and the
result is always the outer zero vector.  `shadowed` records the
discarded inner computation. -/
def getAlignmentCorrection (insect : Insect) (insectList : List Insect)
    (insectVelocities : ℕ → Vec3) : Vec3 :=
  let alignmentInsects := getInsectsWithinDistance insect insectList ALIGNMENT_RADIUS
  let shadowed :=
    if 0 < alignmentInsects.length then
      ALIGNMENT_FACTOR • calculateAverageVelocity alignmentInsects insectVelocities
    else Vec3.zero
  Vec3.zero

/-- `getBoundsCorrection`: per axis, `+LIM_FACTOR` below the negative limit
plus `-LIM_FACTOR` above the positive limit. -/
def getBoundsCorrection (insect : Insect) : Vec3 :=
  let boundsCorrectionLess : Vec3 :=
    ⟨if insect.position.x < -X_LIM then LIM_FACTOR else 0,
     if insect.position.y < -Y_LIM then LIM_FACTOR else 0,
     if insect.position.z < -Z_LIM then LIM_FACTOR else 0⟩
  let boundsCorrectionMore : Vec3 :=
    ⟨if X_LIM < insect.position.x then -LIM_FACTOR else 0,
     if Y_LIM < insect.position.y then -LIM_FACTOR else 0,
     if Z_LIM < insect.position.z then -LIM_FACTOR else 0⟩
  boundsCorrectionLess + boundsCorrectionMore

/-- `getNoiseAlignmentCorrections`: if the agent has neighbors within
`ALIGNMENT_RADIUS` and the angle between its velocity and their average
velocity is below `NOISE_ANGLE` it is aligned and the vector stays zero;
otherwise the vector is the random draw (`randomDirection` scaled to
`Math.random() * VELOCITY_LIM`).  Either way the result is scaled by
`NOISE_FACTOR`. -/
def getNoiseAlignmentCorrections (insect : Insect) (insectList : List Insect)
    (insectVelocities : ℕ → Vec3) (d : Draw) : Vec3 :=
  let alignmentInsects := getInsectsWithinDistance insect insectList ALIGNMENT_RADIUS
  let withinAlignmentLimit : Prop :=
    if 0 < alignmentInsects.length then
      (insectVelocities insect.id).angleTo
        (calculateAverageVelocity alignmentInsects insectVelocities) < NOISE_ANGLE
    else False
  let alignmentVector := if withinAlignmentLimit then Vec3.zero else d.mag • d.dir
  NOISE_FACTOR • alignmentVector

/-- `getNewVelocity`: current velocity plus the five corrections, clamped to
magnitude at most `VELOCITY_LIM`. -/
def getNewVelocity (insect : Insect) (insectList : List Insect)
    (insectVelocities : ℕ → Vec3) (d : Draw) : Vec3 :=
  (insectVelocities insect.id
      + getSeparationCorrection insect insectList
      + getAlignmentCorrection insect insectList insectVelocities
      + getCoherenceCorrection insect insectList
      + getBoundsCorrection insect
      + getNoiseAlignmentCorrections insect insectList insectVelocities d
    ).clampLength 0 VELOCITY_LIM

/-- The body of `updatePositions`'s `forEach`: process the agent at index `k`
of the CURRENT state.  It filters the current list (already-updated earlier
agents included) for the others, computes the new velocity from the current
velocity record, and commits the agent's velocity, look-at orientation and
position in place. -/
def updateInsect (draws : ℕ → Draw) (st : List Insect × (ℕ → Vec3)) (k : ℕ) :
    List Insect × (ℕ → Vec3) :=
  match st.1[k]? with
  | none => st
  | some insect =>
    let insectsMinusOne := st.1.filter fun i => decide (i.id ≠ insect.id)
    let newVelocity := getNewVelocity insect insectsMinusOne st.2 (draws k)
    let newPosition := insect.position + newVelocity
    (st.1.set k { insect with position := newPosition, orientation := newPosition },
     fun j => if j = insect.id then newVelocity else st.2 j)

/-- `updatePositions`: iterate `updateInsect` over the agent indices IN
PLACE, so later agents observe the already-committed updates of earlier ones.
`draws k` is the random draw consumed by iteration `k`'s noise correction. -/
def updatePositions (insectList : List Insect) (insectVelocities : ℕ → Vec3)
    (draws : ℕ → Draw) : List Insect × (ℕ → Vec3) :=
  (List.range insectList.length).foldl (updateInsect draws) (insectList, insectVelocities)

/-- Modelled from the spec: one agent of the snapshot-based step §4.9
mandates — all reads go to the frozen pre-step `insectList₀` and `vels₀`,
only the writes go to the accumulating state. -/
def updateInsectSnapshot (insectList₀ : List Insect) (vels₀ : ℕ → Vec3)
    (draws : ℕ → Draw) (st : List Insect × (ℕ → Vec3)) (k : ℕ) :
    List Insect × (ℕ → Vec3) :=
  match insectList₀[k]? with
  | none => st
  | some insect =>
    let insectsMinusOne := insectList₀.filter fun i => decide (i.id ≠ insect.id)
    let newVelocity := getNewVelocity insect insectsMinusOne vels₀ (draws k)
    let newPosition := insect.position + newVelocity
    (st.1.set k { insect with position := newPosition, orientation := newPosition },
     fun j => if j = insect.id then newVelocity else st.2 j)

/-- Modelled from the spec: the snapshot-based step §4.9 mandates — every
agent's corrections are computed from the agent list and velocity record as
they stood BEFORE the step began, and the results are committed afterwards.
Identical to `updatePositions` except that all reads go to the frozen
pre-step state. -/
def updatePositionsSnapshot (insectList : List Insect) (insectVelocities : ℕ → Vec3)
    (draws : ℕ → Draw) : List Insect × (ℕ → Vec3) :=
  (List.range insectList.length).foldl
    (updateInsectSnapshot insectList insectVelocities draws)
    (insectList, insectVelocities)

----------------------------------------------------------------
-- Instrumented variants: make the division-by-zero branch observable
----------------------------------------------------------------

/-- `divideScalar` with the zero divisor made observable: `none` exactly when
the source would divide by zero (producing NaN components). -/
def divideScalarChecked (v : Vec3) (s : ℝ) : Option Vec3 :=
  if s = 0 then none else some ((1 / s) • v)

/-- `calculateAverageVelocity` with the final division instrumented. -/
def calculateAverageVelocityChecked (insectList : List Insect)
    (insectVelocities : ℕ → Vec3) : Option Vec3 :=
  divideScalarChecked
    (insectList.foldl (fun acc insect => acc + insectVelocities insect.id) Vec3.zero)
    (insectList.length : ℝ)

/-- `calculateAveragePosition` with the final division instrumented. -/
def calculateAveragePositionChecked (insectList : List Insect) : Option Vec3 :=
  divideScalarChecked
    (insectList.foldl (fun acc insect => acc + insect.position) Vec3.zero)
    (insectList.length : ℝ)

/-- `getCoherenceCorrection` with its average instrumented. -/
def getCoherenceCorrectionChecked (insect : Insect) (insectList : List Insect) :
    Option Vec3 :=
  let coherenceInsects := getInsectsWithinDistance insect insectList COHESION_RADIUS
  if 0 < coherenceInsects.length then
    (calculateAveragePositionChecked coherenceInsects).map
      (fun averagePosition => COHESION_FACTOR • (averagePosition - insect.position))
  else some Vec3.zero

/-- `getSeparationCorrection` with its average instrumented. -/
def getSeparationCorrectionChecked (insect : Insect) (insectList : List Insect) :
    Option Vec3 :=
  let separationInsects := getInsectsWithinDistance insect insectList SEPARATION_RADIUS
  if 0 < separationInsects.length then
    (calculateAveragePositionChecked separationInsects).map
      (fun averagePosition => SEPARATION_FACTOR • (insect.position - averagePosition))
  else some Vec3.zero

/-- `getAlignmentCorrection` with its (shadowed, discarded) average
instrumented: the inner average is still computed by the source, so a zero
divisor there would still be a division by zero. -/
def getAlignmentCorrectionChecked (insect : Insect) (insectList : List Insect)
    (insectVelocities : ℕ → Vec3) : Option Vec3 :=
  let alignmentInsects := getInsectsWithinDistance insect insectList ALIGNMENT_RADIUS
  if 0 < alignmentInsects.length then
    (calculateAverageVelocityChecked alignmentInsects insectVelocities).map
      (fun _ => Vec3.zero)
  else some Vec3.zero

/-- `getNoiseAlignmentCorrections` with its average instrumented. -/
def getNoiseAlignmentCorrectionsChecked (insect : Insect) (insectList : List Insect)
    (insectVelocities : ℕ → Vec3) (d : Draw) : Option Vec3 :=
  let alignmentInsects := getInsectsWithinDistance insect insectList ALIGNMENT_RADIUS
  if 0 < alignmentInsects.length then
    (calculateAverageVelocityChecked alignmentInsects insectVelocities).map
      (fun averageVelocity =>
        if (insectVelocities insect.id).angleTo averageVelocity < NOISE_ANGLE then
          NOISE_FACTOR • Vec3.zero
        else NOISE_FACTOR • (d.mag • d.dir))
  else some (NOISE_FACTOR • (d.mag • d.dir))

----------------------------------------------------------------
-- Main script: initialization and the animation stepper (lines 288-324)
----------------------------------------------------------------

/-- The whole mutable state of the main script: the insect list, the
`insectVelocities` record and the `stepCounter`. -/
structure SimState where
  insects : List Insect
  insectVelocities : ℕ → Vec3
  stepCounter : ℕ

/-- One call of `animate` (minus the rendering): while `stepCounter < STEPS`
it runs `updatePositions` and increments the counter, afterwards it leaves
the state untouched.  `draws s.stepCounter` is the random stream consumed by
this step's noise corrections. -/
def animateStep (draws : ℕ → ℕ → Draw) (s : SimState) : SimState :=
  if s.stepCounter < STEPS then
    let updated := updatePositions s.insects s.insectVelocities (draws s.stepCounter)
    ⟨updated.1, updated.2, s.stepCounter + 1⟩
  else s

/-- `n` calls of `animate`. -/
def runSim (draws : ℕ → ℕ → Draw) : ℕ → SimState → SimState
  | 0, s => s
  | n + 1, s => runSim draws n (animateStep draws s)

/-- Modelled from the spec: initialization with an injected seedable random
source (§9: the source's unseeded `Math.random` must become an explicit
random source).  `urand i k` stands for the `k`-th `Math.random()` draw of
insect `i` (three for the position, three for the velocity), and the
position/velocity components are derived from it exactly as in lines
298-308 of the source. -/
def initializeSim (urand : ℕ → ℕ → ℝ) : SimState :=
  ⟨(List.range INSECT_COUNT).map (fun i =>
      { id := i
        position := ⟨urand i 0 * X_LIM * 2 - X_LIM,
                     urand i 1 * Y_LIM * 2 - Y_LIM,
                     urand i 2 * Z_LIM * 2 - Z_LIM⟩
        orientation := Vec3.zero }),
   fun j => if j < INSECT_COUNT then
      ⟨urand j 3 * VELOCITY_LIM * 2 - VELOCITY_LIM,
       urand j 4 * VELOCITY_LIM * 2 - VELOCITY_LIM,
       urand j 5 * VELOCITY_LIM * 2 - VELOCITY_LIM⟩
    else Vec3.zero,
   0⟩

----------------------------------------------------------------
-- Helper lemmas
----------------------------------------------------------------

theorem Vec3.normSq_nonneg (v : Vec3) : 0 ≤ v.normSq := by
  unfold Vec3.normSq; positivity

theorem Vec3.length_nonneg (v : Vec3) : 0 ≤ v.length := Real.sqrt_nonneg _

theorem Vec3.length_le_iff (v : Vec3) (r : ℝ) (hr : 0 ≤ r) :
    v.length ≤ r ↔ v.normSq ≤ r ^ 2 := Real.sqrt_le_left hr

theorem Vec3.length_eq_zero_iff (v : Vec3) : v.length = 0 ↔ v = Vec3.zero := by
  unfold Vec3.length
  rw [Real.sqrt_eq_zero (v.normSq_nonneg), Vec3.ext_iff']
  unfold Vec3.normSq
  constructor
  · intro h
    refine ⟨?_, ?_, ?_⟩ <;> simp only [Vec3.zero_x, Vec3.zero_y, Vec3.zero_z] <;>
      nlinarith [sq_nonneg v.x, sq_nonneg v.y, sq_nonneg v.z]
  · rintro ⟨hx, hy, hz⟩; simp [hx, hy, hz]

theorem Vec3.smul_zero_vec (c : ℝ) : c • Vec3.zero = Vec3.zero := by
  rw [Vec3.ext_iff']; simp

theorem Vec3.one_smul_vec (v : Vec3) : (1 : ℝ) • v = v := by
  rw [Vec3.ext_iff']; simp

theorem Vec3.length_smul (c : ℝ) (v : Vec3) : (c • v).length = |c| * v.length := by
  unfold Vec3.length
  have h : (c • v).normSq = c ^ 2 * v.normSq := by
    unfold Vec3.normSq; simp; ring
  rw [h, Real.sqrt_mul (sq_nonneg c), Real.sqrt_sq_eq_abs]

theorem Vec3.clampLength_of_le (v : Vec3) (lim : ℝ) (h : v.length ≤ lim) :
    v.clampLength 0 lim = v := by
  unfold Vec3.clampLength
  by_cases hL : v.length = 0
  · have hv : v = Vec3.zero := (Vec3.length_eq_zero_iff v).mp hL
    have hlim : 0 ≤ lim := hL ▸ h
    rw [if_pos hL, hL, hv]
    rw [min_eq_right hlim, max_self]
    simp [Vec3.smul_zero_vec]
  · have hpos : 0 < v.length := lt_of_le_of_ne (v.length_nonneg) (Ne.symm hL)
    rw [if_neg hL, min_eq_right h, max_eq_right v.length_nonneg,
      div_self hL, Vec3.one_smul_vec]

theorem Vec3.length_clampLength_eq (v : Vec3) (lim : ℝ) (hlim : 0 ≤ lim)
    (h : lim < v.length) : (v.clampLength 0 lim).length = lim := by
  unfold Vec3.clampLength
  have hpos : 0 < v.length := lt_of_le_of_lt hlim h
  have hL : v.length ≠ 0 := ne_of_gt hpos
  rw [if_neg hL, min_eq_left h.le, max_eq_right hlim, Vec3.length_smul,
    abs_of_nonneg (by positivity), div_mul_cancel₀ _ hL]

theorem Vec3.length_clampLength_le (v : Vec3) (lim : ℝ) (hlim : 0 ≤ lim) :
    (v.clampLength 0 lim).length ≤ lim := by
  by_cases h : v.length ≤ lim
  · rw [Vec3.clampLength_of_le v lim h]; exact h
  · rw [Vec3.length_clampLength_eq v lim hlim (lt_of_not_le h)]

theorem withinDistance_iff_sq (i1 i2 : Insect) (r : ℝ) (hr : 0 ≤ r) :
    withinDistance i1 i2 r ↔ (i1.position - i2.position).normSq ≤ r ^ 2 := by
  unfold withinDistance Vec3.distanceTo
  exact Vec3.length_le_iff _ r hr

theorem getInsectsWithinDistance_nil (m : Insect) (r : ℝ) :
    getInsectsWithinDistance m [] r = [] := rfl

theorem getInsectsWithinDistance_cons_of (m a : Insect) (l : List Insect) (r : ℝ)
    (h : withinDistance m a r) :
    getInsectsWithinDistance m (a :: l) r = a :: getInsectsWithinDistance m l r := by
  simp [getInsectsWithinDistance, List.filter_cons, h]

theorem getInsectsWithinDistance_cons_of_not (m a : Insect) (l : List Insect) (r : ℝ)
    (h : ¬ withinDistance m a r) :
    getInsectsWithinDistance m (a :: l) r = getInsectsWithinDistance m l r := by
  simp [getInsectsWithinDistance, List.filter_cons, h]

theorem mem_getInsectsWithinDistance (m b : Insect) (l : List Insect) (r : ℝ) :
    b ∈ getInsectsWithinDistance m l r ↔ b ∈ l ∧ withinDistance m b r := by
  simp [getInsectsWithinDistance, List.mem_filter]

theorem calculateAveragePosition_singleton (b : Insect) :
    calculateAveragePosition [b] = b.position := by
  unfold calculateAveragePosition
  rw [Vec3.ext_iff']
  simp

theorem calculateAverageVelocity_singleton (b : Insect) (vels : ℕ → Vec3) :
    calculateAverageVelocity [b] vels = vels b.id := by
  unfold calculateAverageVelocity
  rw [Vec3.ext_iff']
  simp

theorem noiseangle_pos : 0 < NOISE_ANGLE := by
  unfold NOISE_ANGLE
  have := Real.pi_pos
  linarith

theorem angleTo_parallel_pos_x (a c : ℝ) (ha : 0 < a) (hc : 0 < c) :
    Vec3.angleTo ⟨a, 0, 0⟩ ⟨c, 0, 0⟩ < NOISE_ANGLE := by
  unfold Vec3.angleTo Vec3.dot Vec3.normSq
  have hs : Real.sqrt ((a ^ 2 + 0 ^ 2 + 0 ^ 2) * (c ^ 2 + 0 ^ 2 + 0 ^ 2)) = a * c := by
    rw [show (a ^ 2 + 0 ^ 2 + 0 ^ 2) * (c ^ 2 + 0 ^ 2 + 0 ^ 2) = (a * c) ^ 2 by ring]
    exact Real.sqrt_sq (by positivity)
  rw [hs]
  have hne : a * c ≠ 0 := by positivity
  rw [show a * c + 0 * 0 + 0 * 0 = a * c by ring, div_self hne, Real.arccos_one]
  exact noiseangle_pos

theorem angleTo_antiparallel_x (a c : ℝ) (ha : 0 < a) (hc : 0 < c) :
    ¬ Vec3.angleTo ⟨a, 0, 0⟩ ⟨-c, 0, 0⟩ < NOISE_ANGLE := by
  unfold Vec3.angleTo Vec3.dot Vec3.normSq
  have hs : Real.sqrt ((a ^ 2 + 0 ^ 2 + 0 ^ 2) * ((-c) ^ 2 + 0 ^ 2 + 0 ^ 2)) = a * c := by
    rw [show (a ^ 2 + 0 ^ 2 + 0 ^ 2) * ((-c) ^ 2 + 0 ^ 2 + 0 ^ 2) = (a * c) ^ 2 by ring]
    exact Real.sqrt_sq (by positivity)
  rw [hs]
  have hne : a * c ≠ 0 := by positivity
  rw [show a * (-c) + 0 * 0 + 0 * 0 = -(a * c) by ring, neg_div, div_self hne,
    Real.arccos_neg_one]
  unfold NOISE_ANGLE
  have := Real.pi_pos
  linarith

theorem getInsectsWithinDistance_eq_nil (m : Insect) (l : List Insect) (r : ℝ)
    (h : ∀ b ∈ l, ¬ withinDistance m b r) :
    getInsectsWithinDistance m l r = [] := by
  simp only [getInsectsWithinDistance, List.filter_eq_nil_iff, decide_eq_true_eq]
  exact h

theorem getAlignmentCorrection_eq_zero (insect : Insect) (insectList : List Insect)
    (vels : ℕ → Vec3) : getAlignmentCorrection insect insectList vels = Vec3.zero := rfl

theorem getNoiseAlignmentCorrections_eq (insect : Insect) (insectList : List Insect)
    (vels : ℕ → Vec3) (d : Draw) :
    getNoiseAlignmentCorrections insect insectList vels d
      = if (if 0 < (getInsectsWithinDistance insect insectList ALIGNMENT_RADIUS).length
            then (vels insect.id).angleTo
                (calculateAverageVelocity
                  (getInsectsWithinDistance insect insectList ALIGNMENT_RADIUS) vels)
              < NOISE_ANGLE
            else False)
        then NOISE_FACTOR • Vec3.zero
        else NOISE_FACTOR • (d.mag • d.dir) := by
  simp only [getNoiseAlignmentCorrections]
  rw [apply_ite (fun w : Vec3 => NOISE_FACTOR • w)]

theorem calculateAveragePositionChecked_of_ne_nil (l : List Insect) (h : l ≠ []) :
    calculateAveragePositionChecked l = some (calculateAveragePosition l) := by
  unfold calculateAveragePositionChecked divideScalarChecked calculateAveragePosition
  rw [if_neg (by simpa [Nat.cast_eq_zero, List.length_eq_zero] using h)]

theorem calculateAverageVelocityChecked_of_ne_nil (l : List Insect) (vels : ℕ → Vec3)
    (h : l ≠ []) :
    calculateAverageVelocityChecked l vels = some (calculateAverageVelocity l vels) := by
  unfold calculateAverageVelocityChecked divideScalarChecked calculateAverageVelocity
  rw [if_neg (by simpa [Nat.cast_eq_zero, List.length_eq_zero] using h)]

----------------------------------------------------------------
-- Claim theorems
----------------------------------------------------------------

/-- Claim C4: the bounds correction works per axis independently: the
component is `+LIM_FACTOR` strictly below the negative limit, `-LIM_FACTOR`
strictly above the positive limit, and `0` otherwise; in particular an agent
at `x = X_LIM + 1` gets x-component exactly `-LIM_FACTOR`, at
`x = -X_LIM - 1` exactly `+LIM_FACTOR`, and with `|x| < X_LIM` exactly `0`. -/
theorem bounds_correction_per_axis (insect : Insect) :
    ((insect.position.x < -X_LIM → (getBoundsCorrection insect).x = LIM_FACTOR)
      ∧ (X_LIM < insect.position.x → (getBoundsCorrection insect).x = -LIM_FACTOR)
      ∧ (-X_LIM ≤ insect.position.x → insect.position.x ≤ X_LIM →
          (getBoundsCorrection insect).x = 0))
    ∧ ((insect.position.y < -Y_LIM → (getBoundsCorrection insect).y = LIM_FACTOR)
      ∧ (Y_LIM < insect.position.y → (getBoundsCorrection insect).y = -LIM_FACTOR)
      ∧ (-Y_LIM ≤ insect.position.y → insect.position.y ≤ Y_LIM →
          (getBoundsCorrection insect).y = 0))
    ∧ ((insect.position.z < -Z_LIM → (getBoundsCorrection insect).z = LIM_FACTOR)
      ∧ (Z_LIM < insect.position.z → (getBoundsCorrection insect).z = -LIM_FACTOR)
      ∧ (-Z_LIM ≤ insect.position.z → insect.position.z ≤ Z_LIM →
          (getBoundsCorrection insect).z = 0))
    ∧ (insect.position.x = X_LIM + 1 → (getBoundsCorrection insect).x = -LIM_FACTOR)
    ∧ (insect.position.x = -X_LIM - 1 → (getBoundsCorrection insect).x = LIM_FACTOR)
    ∧ (|insect.position.x| < X_LIM → (getBoundsCorrection insect).x = 0) := by
  have hgx : (getBoundsCorrection insect).x =
      (if insect.position.x < -X_LIM then LIM_FACTOR else 0)
        + (if X_LIM < insect.position.x then -LIM_FACTOR else 0) := rfl
  have hgy : (getBoundsCorrection insect).y =
      (if insect.position.y < -Y_LIM then LIM_FACTOR else 0)
        + (if Y_LIM < insect.position.y then -LIM_FACTOR else 0) := rfl
  have hgz : (getBoundsCorrection insect).z =
      (if insect.position.z < -Z_LIM then LIM_FACTOR else 0)
        + (if Z_LIM < insect.position.z then -LIM_FACTOR else 0) := rfl
  have hX : (0 : ℝ) < X_LIM := by norm_num [X_LIM]
  have hY : (0 : ℝ) < Y_LIM := by norm_num [Y_LIM]
  have hZ : (0 : ℝ) < Z_LIM := by norm_num [Z_LIM]
  refine ⟨⟨?_, ?_, fun h1 h2 => ?_⟩, ⟨?_, ?_, fun h1 h2 => ?_⟩,
    ⟨?_, ?_, fun h1 h2 => ?_⟩, ?_, ?_, ?_⟩
  · intro h; rw [hgx, if_pos h, if_neg (by linarith)]; ring
  · intro h; rw [hgx, if_neg (by linarith), if_pos h]; ring
  · rw [hgx, if_neg (by linarith), if_neg (by linarith)]; ring
  · intro h; rw [hgy, if_pos h, if_neg (by linarith)]; ring
  · intro h; rw [hgy, if_neg (by linarith), if_pos h]; ring
  · rw [hgy, if_neg (by linarith), if_neg (by linarith)]; ring
  · intro h; rw [hgz, if_pos h, if_neg (by linarith)]; ring
  · intro h; rw [hgz, if_neg (by linarith), if_pos h]; ring
  · rw [hgz, if_neg (by linarith), if_neg (by linarith)]; ring
  · intro h; rw [hgx, if_neg (by linarith), if_pos (by linarith)]; ring
  · intro h; rw [hgx, if_pos (by linarith), if_neg (by linarith)]; ring
  · intro h
    rw [abs_lt] at h
    rw [hgx, if_neg (by linarith), if_neg (by linarith)]; ring

/-- Witness for C4: the agent at `(136, 0, 0)` (one beyond `X_LIM = 135`) gets
x-component exactly `-LIM_FACTOR`. -/
theorem bounds_correction_per_axis_witness :
    (getBoundsCorrection ⟨0, ⟨136, 0, 0⟩, Vec3.zero⟩).x = -LIM_FACTOR :=
  (bounds_correction_per_axis ⟨0, ⟨136, 0, 0⟩, Vec3.zero⟩).2.2.2.1
    (by norm_num [X_LIM])

/-- Claim C1 (code bug): in the source the branch for a non-empty neighbor set
declares a shadowing inner `const alignmentVector`, so `getAlignmentCorrection`
always returns the zero vector, even for an agent with a neighbor within
`ALIGNMENT_RADIUS` whose scaled average velocity is `⟨1/20, 0, 0⟩ ≠ 0` — where
the claim (and the function's own doc comment) promise
`ALIGNMENT_FACTOR * averageVelocity(neighbors)`. -/
theorem alignment_correction_shadowing_bug :
    getAlignmentCorrection ⟨0, ⟨0, 0, 0⟩, Vec3.zero⟩ [⟨1, ⟨10, 0, 0⟩, Vec3.zero⟩]
        (fun _ => ⟨1, 0, 0⟩) = Vec3.zero
    ∧ withinDistance ⟨0, ⟨0, 0, 0⟩, Vec3.zero⟩ ⟨1, ⟨10, 0, 0⟩, Vec3.zero⟩ ALIGNMENT_RADIUS
    ∧ ALIGNMENT_FACTOR • calculateAverageVelocity [⟨1, ⟨10, 0, 0⟩, Vec3.zero⟩]
        (fun _ => ⟨1, 0, 0⟩) = ⟨1 / 20, 0, 0⟩
    ∧ (⟨1 / 20, 0, 0⟩ : Vec3) ≠ Vec3.zero := by
  refine ⟨rfl, ?_, ?_, ?_⟩
  · rw [withinDistance_iff_sq _ _ _ (by norm_num [ALIGNMENT_RADIUS])]
    simp [Vec3.normSq, ALIGNMENT_RADIUS]
    norm_num
  · rw [calculateAverageVelocity_singleton]
    rw [Vec3.ext_iff']
    norm_num [ALIGNMENT_FACTOR]
  · rw [Ne, Vec3.ext_iff']
    norm_num

/-- Claim C7: an agent with no other agent within any of the three configured
radii receives zero separation, alignment and cohesion corrections; and in a
one-agent simulation the self-exclusion filter leaves no neighbors at all. -/
theorem isolated_agent_zero_corrections (insect : Insect) (insectList : List Insect)
    (vels : ℕ → Vec3)
    (hsep : ∀ b ∈ insectList, ¬ withinDistance insect b SEPARATION_RADIUS)
    (halign : ∀ b ∈ insectList, ¬ withinDistance insect b ALIGNMENT_RADIUS)
    (hcoh : ∀ b ∈ insectList, ¬ withinDistance insect b COHESION_RADIUS) :
    getSeparationCorrection insect insectList = Vec3.zero
    ∧ getAlignmentCorrection insect insectList vels = Vec3.zero
    ∧ getCoherenceCorrection insect insectList = Vec3.zero
    ∧ List.filter (fun i => decide (i.id ≠ insect.id)) [insect] = [] := by
  refine ⟨?_, rfl, ?_, by simp⟩
  · unfold getSeparationCorrection
    rw [getInsectsWithinDistance_eq_nil insect insectList SEPARATION_RADIUS hsep]
    simp
  · unfold getCoherenceCorrection
    rw [getInsectsWithinDistance_eq_nil insect insectList COHESION_RADIUS hcoh]
    simp

/-- Witness for C7: an agent at the origin with the only other agent at
distance 100 (beyond every configured radius) gets zero corrections. -/
theorem isolated_agent_zero_corrections_witness :
    getSeparationCorrection ⟨0, ⟨0, 0, 0⟩, Vec3.zero⟩ [⟨1, ⟨100, 0, 0⟩, Vec3.zero⟩]
        = Vec3.zero
    ∧ getAlignmentCorrection ⟨0, ⟨0, 0, 0⟩, Vec3.zero⟩ [⟨1, ⟨100, 0, 0⟩, Vec3.zero⟩]
        (fun _ => Vec3.zero) = Vec3.zero
    ∧ getCoherenceCorrection ⟨0, ⟨0, 0, 0⟩, Vec3.zero⟩ [⟨1, ⟨100, 0, 0⟩, Vec3.zero⟩]
        = Vec3.zero
    ∧ List.filter (fun i => decide (i.id ≠ (0 : ℕ)))
        [(⟨0, ⟨0, 0, 0⟩, Vec3.zero⟩ : Insect)] = [] := by
  have h := isolated_agent_zero_corrections ⟨0, ⟨0, 0, 0⟩, Vec3.zero⟩
    [⟨1, ⟨100, 0, 0⟩, Vec3.zero⟩] (fun _ => Vec3.zero)
    (by
      intro b hb
      rw [List.mem_singleton] at hb
      subst hb
      rw [withinDistance_iff_sq _ _ _ (by norm_num [SEPARATION_RADIUS])]
      simp [Vec3.normSq, SEPARATION_RADIUS]
      norm_num)
    (by
      intro b hb
      rw [List.mem_singleton] at hb
      subst hb
      rw [withinDistance_iff_sq _ _ _ (by norm_num [ALIGNMENT_RADIUS])]
      simp [Vec3.normSq, ALIGNMENT_RADIUS]
      norm_num)
    (by
      intro b hb
      rw [List.mem_singleton] at hb
      subst hb
      rw [withinDistance_iff_sq _ _ _ (by norm_num [COHESION_RADIUS])]
      simp [Vec3.normSq, COHESION_RADIUS]
      norm_num)
  exact h

/-- Claim C10: every caller of the two average functions guards the division
by the list length behind a nonempty check, so the division-by-zero (NaN)
branch is unreachable: each instrumented correction always returns `some` of
the direct correction. -/
theorem corrections_never_divide_by_zero (insect : Insect) (insectList : List Insect)
    (vels : ℕ → Vec3) (d : Draw) :
    getCoherenceCorrectionChecked insect insectList
        = some (getCoherenceCorrection insect insectList)
    ∧ getSeparationCorrectionChecked insect insectList
        = some (getSeparationCorrection insect insectList)
    ∧ getAlignmentCorrectionChecked insect insectList vels
        = some (getAlignmentCorrection insect insectList vels)
    ∧ getNoiseAlignmentCorrectionsChecked insect insectList vels d
        = some (getNoiseAlignmentCorrections insect insectList vels d) := by
  refine ⟨?_, ?_, ?_, ?_⟩
  · unfold getCoherenceCorrectionChecked getCoherenceCorrection
    by_cases h : 0 < (getInsectsWithinDistance insect insectList COHESION_RADIUS).length
    · rw [if_pos h, if_pos h,
        calculateAveragePositionChecked_of_ne_nil _ (List.length_pos.mp h)]
      rfl
    · rw [if_neg h, if_neg h]
  · unfold getSeparationCorrectionChecked getSeparationCorrection
    by_cases h : 0 < (getInsectsWithinDistance insect insectList SEPARATION_RADIUS).length
    · rw [if_pos h, if_pos h,
        calculateAveragePositionChecked_of_ne_nil _ (List.length_pos.mp h)]
      rfl
    · rw [if_neg h, if_neg h]
  · unfold getAlignmentCorrectionChecked getAlignmentCorrection
    by_cases h : 0 < (getInsectsWithinDistance insect insectList ALIGNMENT_RADIUS).length
    · rw [if_pos h,
        calculateAverageVelocityChecked_of_ne_nil _ vels (List.length_pos.mp h)]
      rfl
    · rw [if_neg h]
  · rw [getNoiseAlignmentCorrections_eq]
    unfold getNoiseAlignmentCorrectionsChecked
    by_cases h : 0 < (getInsectsWithinDistance insect insectList ALIGNMENT_RADIUS).length
    · rw [if_pos h,
        calculateAverageVelocityChecked_of_ne_nil _ vels (List.length_pos.mp h)]
      simp [h]
    · rw [if_neg h]
      simp [h]

/-- Claim C5: the noise correction is `NOISE_FACTOR • 0` (hence zero) exactly
when the agent has a neighbor within `ALIGNMENT_RADIUS` and the angle between
its velocity and the neighbors' average velocity is strictly below
`NOISE_ANGLE`; otherwise it is `NOISE_FACTOR` times the drawn random vector,
whose direction is the drawn unit direction and whose magnitude is the drawn
magnitude in `[0, VELOCITY_LIM)`.  (The draw stands for `randomDirection()`
and `Math.random() * VELOCITY_LIM`; uniformity is a property of those
platform primitives, modelled here as the hypotheses on the draw.) -/
theorem noise_alignment_correction_spec (insect : Insect) (insectList : List Insect)
    (vels : ℕ → Vec3) (d : Draw)
    (hdir : d.dir.length = 1) (hmag0 : 0 ≤ d.mag) (hmag1 : d.mag < VELOCITY_LIM) :
    (getInsectsWithinDistance insect insectList ALIGNMENT_RADIUS ≠ []
        ∧ (vels insect.id).angleTo
            (calculateAverageVelocity
              (getInsectsWithinDistance insect insectList ALIGNMENT_RADIUS) vels)
          < NOISE_ANGLE →
      getNoiseAlignmentCorrections insect insectList vels d = NOISE_FACTOR • Vec3.zero)
    ∧ (¬ (getInsectsWithinDistance insect insectList ALIGNMENT_RADIUS ≠ []
        ∧ (vels insect.id).angleTo
            (calculateAverageVelocity
              (getInsectsWithinDistance insect insectList ALIGNMENT_RADIUS) vels)
          < NOISE_ANGLE) →
      getNoiseAlignmentCorrections insect insectList vels d
        = NOISE_FACTOR • (d.mag • d.dir))
    ∧ NOISE_FACTOR • Vec3.zero = Vec3.zero
    ∧ (d.mag • d.dir).length = d.mag
    ∧ (d.mag • d.dir).length < VELOCITY_LIM := by
  have hiff : (if 0 < (getInsectsWithinDistance insect insectList ALIGNMENT_RADIUS).length
      then (vels insect.id).angleTo
            (calculateAverageVelocity
              (getInsectsWithinDistance insect insectList ALIGNMENT_RADIUS) vels)
          < NOISE_ANGLE
      else False)
      ↔ (getInsectsWithinDistance insect insectList ALIGNMENT_RADIUS ≠ []
        ∧ (vels insect.id).angleTo
            (calculateAverageVelocity
              (getInsectsWithinDistance insect insectList ALIGNMENT_RADIUS) vels)
          < NOISE_ANGLE) := by
    by_cases h : 0 < (getInsectsWithinDistance insect insectList ALIGNMENT_RADIUS).length
    · rw [if_pos h]
      simp [List.length_pos.mp h]
    · rw [if_neg h]
      simp only [false_iff]
      rintro ⟨hne, -⟩
      exact h (List.length_pos.mpr hne)
  have hlen : (d.mag • d.dir).length = d.mag := by
    rw [Vec3.length_smul, hdir, abs_of_nonneg hmag0, mul_one]
  refine ⟨?_, ?_, Vec3.smul_zero_vec NOISE_FACTOR, hlen, by rw [hlen]; exact hmag1⟩
  · intro h
    rw [getNoiseAlignmentCorrections_eq, if_pos (hiff.mpr h)]
  · intro h
    rw [getNoiseAlignmentCorrections_eq, if_neg (fun hc => h (hiff.mp hc))]

/-- Witness for C5: an agent with no neighbors is not aligned, so with the
unit draw `(1,0,0)` of magnitude `1` the noise correction is
`NOISE_FACTOR • (1 • (1,0,0))`. -/
theorem noise_alignment_correction_spec_witness :
    getNoiseAlignmentCorrections ⟨0, Vec3.zero, Vec3.zero⟩ [] (fun _ => Vec3.zero)
        ⟨⟨1, 0, 0⟩, 1⟩
      = NOISE_FACTOR • ((1 : ℝ) • (⟨1, 0, 0⟩ : Vec3)) := by
  have h := noise_alignment_correction_spec ⟨0, Vec3.zero, Vec3.zero⟩ [] (fun _ => Vec3.zero)
    ⟨⟨1, 0, 0⟩, 1⟩
    (by
      unfold Vec3.length Vec3.normSq
      norm_num)
    (by norm_num)
    (by norm_num [VELOCITY_LIM])
  exact h.2.1 (by simp [getInsectsWithinDistance_nil])

theorem updateInsect_eq (draws : ℕ → Draw) (st : List Insect × (ℕ → Vec3)) (k : ℕ)
    (insect : Insect) (h : st.1[k]? = some insect) :
    updateInsect draws st k =
      (st.1.set k
        { insect with
            position := insect.position
              + getNewVelocity insect (st.1.filter fun i => decide (i.id ≠ insect.id))
                  st.2 (draws k),
            orientation := insect.position
              + getNewVelocity insect (st.1.filter fun i => decide (i.id ≠ insect.id))
                  st.2 (draws k) },
       fun j => if j = insect.id
         then getNewVelocity insect (st.1.filter fun i => decide (i.id ≠ insect.id))
                st.2 (draws k)
         else st.2 j) := by
  unfold updateInsect
  rw [h]

theorem updateInsectSnapshot_eq (l₀ : List Insect) (v₀ : ℕ → Vec3) (draws : ℕ → Draw)
    (st : List Insect × (ℕ → Vec3)) (k : ℕ) (insect : Insect) (h : l₀[k]? = some insect) :
    updateInsectSnapshot l₀ v₀ draws st k =
      (st.1.set k
        { insect with
            position := insect.position
              + getNewVelocity insect (l₀.filter fun i => decide (i.id ≠ insect.id))
                  v₀ (draws k),
            orientation := insect.position
              + getNewVelocity insect (l₀.filter fun i => decide (i.id ≠ insect.id))
                  v₀ (draws k) },
       fun j => if j = insect.id
         then getNewVelocity insect (l₀.filter fun i => decide (i.id ≠ insect.id))
                v₀ (draws k)
         else st.2 j) := by
  unfold updateInsectSnapshot
  rw [h]

theorem getSeparationCorrection_nil (insect : Insect) :
    getSeparationCorrection insect [] = Vec3.zero := by
  simp [getSeparationCorrection, getInsectsWithinDistance_nil]

theorem getCoherenceCorrection_nil (insect : Insect) :
    getCoherenceCorrection insect [] = Vec3.zero := by
  simp [getCoherenceCorrection, getInsectsWithinDistance_nil]

theorem getNoiseAlignmentCorrections_nil (insect : Insect) (vels : ℕ → Vec3) (d : Draw) :
    getNoiseAlignmentCorrections insect [] vels d = NOISE_FACTOR • (d.mag • d.dir) := by
  rw [getNoiseAlignmentCorrections_eq]
  rw [if_neg (by simp [getInsectsWithinDistance_nil])]

theorem getNoiseAlignmentCorrections_of_aligned (insect : Insect) (insectList : List Insect)
    (vels : ℕ → Vec3) (d : Draw)
    (h : getInsectsWithinDistance insect insectList ALIGNMENT_RADIUS ≠ [])
    (hangle : (vels insect.id).angleTo
        (calculateAverageVelocity
          (getInsectsWithinDistance insect insectList ALIGNMENT_RADIUS) vels)
      < NOISE_ANGLE) :
    getNoiseAlignmentCorrections insect insectList vels d = Vec3.zero := by
  rw [getNoiseAlignmentCorrections_eq,
    if_pos (by rw [if_pos (List.length_pos.mpr h)]; exact hangle),
    Vec3.smul_zero_vec]

theorem getBoundsCorrection_x (insect : Insect) :
    (getBoundsCorrection insect).x =
      (if insect.position.x < -X_LIM then LIM_FACTOR else 0)
        + (if X_LIM < insect.position.x then -LIM_FACTOR else 0) := rfl

theorem getBoundsCorrection_y (insect : Insect) :
    (getBoundsCorrection insect).y =
      (if insect.position.y < -Y_LIM then LIM_FACTOR else 0)
        + (if Y_LIM < insect.position.y then -LIM_FACTOR else 0) := rfl

theorem getBoundsCorrection_z (insect : Insect) :
    (getBoundsCorrection insect).z =
      (if insect.position.z < -Z_LIM then LIM_FACTOR else 0)
        + (if Z_LIM < insect.position.z then -LIM_FACTOR else 0) := rfl

theorem getBoundsCorrection_of_inside (insect : Insect)
    (hx1 : -X_LIM ≤ insect.position.x) (hx2 : insect.position.x ≤ X_LIM)
    (hy1 : -Y_LIM ≤ insect.position.y) (hy2 : insect.position.y ≤ Y_LIM)
    (hz1 : -Z_LIM ≤ insect.position.z) (hz2 : insect.position.z ≤ Z_LIM) :
    getBoundsCorrection insect = Vec3.zero := by
  rw [Vec3.ext_iff']
  refine ⟨?_, ?_, ?_⟩
  · rw [getBoundsCorrection_x, if_neg (by linarith), if_neg (by linarith)]; simp
  · rw [getBoundsCorrection_y, if_neg (by linarith), if_neg (by linarith)]; simp
  · rw [getBoundsCorrection_z, if_neg (by linarith), if_neg (by linarith)]; simp

theorem getSeparationCorrection_single_far (insect b : Insect)
    (h : ¬ withinDistance insect b SEPARATION_RADIUS) :
    getSeparationCorrection insect [b] = Vec3.zero := by
  have e1 : getInsectsWithinDistance insect [b] SEPARATION_RADIUS = [] := by
    rw [getInsectsWithinDistance_cons_of_not _ _ _ _ h, getInsectsWithinDistance_nil]
  simp [getSeparationCorrection, e1]

theorem getCoherenceCorrection_single_near (insect b : Insect)
    (h : withinDistance insect b COHESION_RADIUS) :
    getCoherenceCorrection insect [b]
      = COHESION_FACTOR • (b.position - insect.position) := by
  have e1 : getInsectsWithinDistance insect [b] COHESION_RADIUS = [b] := by
    rw [getInsectsWithinDistance_cons_of _ _ _ _ h, getInsectsWithinDistance_nil]
  simp [getCoherenceCorrection, e1, calculateAveragePosition_singleton]

theorem getNoiseAlignmentCorrections_single_aligned (insect b : Insect)
    (vels : ℕ → Vec3) (d : Draw)
    (hin : withinDistance insect b ALIGNMENT_RADIUS)
    (hangle : (vels insect.id).angleTo (vels b.id) < NOISE_ANGLE) :
    getNoiseAlignmentCorrections insect [b] vels d = Vec3.zero := by
  have e1 : getInsectsWithinDistance insect [b] ALIGNMENT_RADIUS = [b] := by
    rw [getInsectsWithinDistance_cons_of _ _ _ _ hin, getInsectsWithinDistance_nil]
  refine getNoiseAlignmentCorrections_of_aligned insect [b] vels d (by rw [e1]; simp) ?_
  rw [e1, calculateAverageVelocity_singleton]
  exact hangle

theorem updatePositions_singleton_eq_snapshot (a : Insect) (vels : ℕ → Vec3)
    (draws : ℕ → Draw) :
    updatePositions [a] vels draws = updatePositionsSnapshot [a] vels draws := rfl

theorem updatePositions_singleton (a : Insect) (vels : ℕ → Vec3) (draws : ℕ → Draw) :
    updatePositions [a] vels draws
      = ([{ a with
              position := a.position + getNewVelocity a [] vels (draws 0),
              orientation := a.position + getNewVelocity a [] vels (draws 0) }],
         fun j => if j = a.id then getNewVelocity a [] vels (draws 0) else vels j) := by
  have hf : (([a] : List Insect).filter fun i => decide (i.id ≠ a.id)) = [] := by simp
  unfold updatePositions
  rw [show List.range ([a] : List Insect).length = [0] from rfl, List.foldl_cons,
    List.foldl_nil, updateInsect_eq draws ([a], vels) 0 a rfl]
  simp [hf]

theorem updatePositions_pair_snd (a b : Insect) (vels : ℕ → Vec3) (draws : ℕ → Draw)
    (hab : a.id ≠ b.id) :
    (updatePositions [a, b] vels draws).2 b.id
      = getNewVelocity b
          [{ a with
              position := a.position + getNewVelocity a [b] vels (draws 0),
              orientation := a.position + getNewVelocity a [b] vels (draws 0) }]
          (fun j => if j = a.id then getNewVelocity a [b] vels (draws 0) else vels j)
          (draws 1) := by
  have hba : b.id ≠ a.id := Ne.symm hab
  have step0 : updateInsect draws ([a, b], vels) 0
      = ([{ a with
              position := a.position + getNewVelocity a [b] vels (draws 0),
              orientation := a.position + getNewVelocity a [b] vels (draws 0) }, b],
         fun j => if j = a.id then getNewVelocity a [b] vels (draws 0) else vels j) := by
    rw [updateInsect_eq draws ([a, b], vels) 0 a rfl]
    simp [hba]
  unfold updatePositions
  rw [show List.range ([a, b] : List Insect).length = [0, 1] from rfl,
    List.foldl_cons, List.foldl_cons, List.foldl_nil, step0,
    updateInsect_eq draws
      ([{ a with
            position := a.position + getNewVelocity a [b] vels (draws 0),
            orientation := a.position + getNewVelocity a [b] vels (draws 0) }, b],
       fun j => if j = a.id then getNewVelocity a [b] vels (draws 0) else vels j)
      1 b rfl]
  simp [hab]

theorem updatePositionsSnapshot_pair_snd (a b : Insect) (vels : ℕ → Vec3)
    (draws : ℕ → Draw) (hab : a.id ≠ b.id) :
    (updatePositionsSnapshot [a, b] vels draws).2 b.id
      = getNewVelocity b [a] vels (draws 1) := by
  have hba : b.id ≠ a.id := Ne.symm hab
  have step0 : updateInsectSnapshot [a, b] vels draws ([a, b], vels) 0
      = ([{ a with
              position := a.position + getNewVelocity a [b] vels (draws 0),
              orientation := a.position + getNewVelocity a [b] vels (draws 0) }, b],
         fun j => if j = a.id then getNewVelocity a [b] vels (draws 0) else vels j) := by
    rw [updateInsectSnapshot_eq [a, b] vels draws ([a, b], vels) 0 a rfl]
    simp [hba]
  unfold updatePositionsSnapshot
  rw [show List.range ([a, b] : List Insect).length = [0, 1] from rfl,
    List.foldl_cons, List.foldl_cons, List.foldl_nil, step0,
    updateInsectSnapshot_eq [a, b] vels draws
      ([{ a with
            position := a.position + getNewVelocity a [b] vels (draws 0),
            orientation := a.position + getNewVelocity a [b] vels (draws 0) }, b],
       fun j => if j = a.id then getNewVelocity a [b] vels (draws 0) else vels j)
      1 b rfl]
  simp [hab]

theorem clampLength_eval_eq (v w : Vec3) (hv : v = w) (hw : w.length ≤ VELOCITY_LIM) :
    v.clampLength 0 VELOCITY_LIM = w := by
  rw [hv]
  exact Vec3.clampLength_of_le _ _ hw

theorem seq_pair_velocity_eval :
    (updatePositions [⟨0, ⟨0, 0, 0⟩, ⟨0, 0, 0⟩⟩, ⟨1, ⟨20, 0, 0⟩, ⟨0, 0, 0⟩⟩]
        (fun _ => ⟨1 / 2, 0, 0⟩) (fun _ => ⟨⟨1, 0, 0⟩, 0⟩)).2 1
      = ⟨-67 / 1000, 0, 0⟩ := by
  have hnv0 : getNewVelocity ⟨0, ⟨0, 0, 0⟩, ⟨0, 0, 0⟩⟩ [⟨1, ⟨20, 0, 0⟩, ⟨0, 0, 0⟩⟩]
      (fun _ => ⟨1 / 2, 0, 0⟩) ⟨⟨1, 0, 0⟩, 0⟩ = ⟨11 / 10, 0, 0⟩ := by
    have hsep : getSeparationCorrection ⟨0, ⟨0, 0, 0⟩, ⟨0, 0, 0⟩⟩
        [⟨1, ⟨20, 0, 0⟩, ⟨0, 0, 0⟩⟩] = Vec3.zero :=
      getSeparationCorrection_single_far _ _ (by
        rw [withinDistance_iff_sq _ _ _ (by norm_num [SEPARATION_RADIUS])]
        simp [Vec3.normSq, SEPARATION_RADIUS]
        norm_num)
    have hcoh : getCoherenceCorrection ⟨0, ⟨0, 0, 0⟩, ⟨0, 0, 0⟩⟩
        [⟨1, ⟨20, 0, 0⟩, ⟨0, 0, 0⟩⟩]
        = COHESION_FACTOR • ((⟨20, 0, 0⟩ : Vec3) - (⟨0, 0, 0⟩ : Vec3)) :=
      getCoherenceCorrection_single_near _ _ (by
        rw [withinDistance_iff_sq _ _ _ (by norm_num [COHESION_RADIUS])]
        simp [Vec3.normSq, COHESION_RADIUS]
        norm_num)
    have hbnd : getBoundsCorrection ⟨0, ⟨0, 0, 0⟩, ⟨0, 0, 0⟩⟩ = Vec3.zero :=
      getBoundsCorrection_of_inside _ (by norm_num [X_LIM]) (by norm_num [X_LIM])
        (by norm_num [Y_LIM]) (by norm_num [Y_LIM])
        (by norm_num [Z_LIM]) (by norm_num [Z_LIM])
    have hnoise : getNoiseAlignmentCorrections ⟨0, ⟨0, 0, 0⟩, ⟨0, 0, 0⟩⟩
        [⟨1, ⟨20, 0, 0⟩, ⟨0, 0, 0⟩⟩] (fun _ => ⟨1 / 2, 0, 0⟩) ⟨⟨1, 0, 0⟩, 0⟩ = Vec3.zero :=
      getNoiseAlignmentCorrections_single_aligned _ _ _ _
        (by
          rw [withinDistance_iff_sq _ _ _ (by norm_num [ALIGNMENT_RADIUS])]
          simp [Vec3.normSq, ALIGNMENT_RADIUS]
          norm_num)
        (angleTo_parallel_pos_x (1 / 2) (1 / 2) (by norm_num) (by norm_num))
    unfold getNewVelocity
    rw [hsep, getAlignmentCorrection_eq_zero, hcoh, hbnd, hnoise]
    exact clampLength_eval_eq _ _
      (by rw [Vec3.ext_iff']; simp [COHESION_FACTOR]; norm_num)
      (by
        rw [Vec3.length_le_iff _ _ (by norm_num [VELOCITY_LIM])]
        simp [Vec3.normSq]
        norm_num [VELOCITY_LIM])
  have hnv1 : getNewVelocity ⟨1, ⟨20, 0, 0⟩, ⟨0, 0, 0⟩⟩ [⟨0, ⟨11 / 10, 0, 0⟩, ⟨11 / 10, 0, 0⟩⟩]
      (fun j => if j = 0 then ⟨11 / 10, 0, 0⟩ else ⟨1 / 2, 0, 0⟩) ⟨⟨1, 0, 0⟩, 0⟩
      = ⟨-67 / 1000, 0, 0⟩ := by
    have hsep : getSeparationCorrection ⟨1, ⟨20, 0, 0⟩, ⟨0, 0, 0⟩⟩
        [⟨0, ⟨11 / 10, 0, 0⟩, ⟨11 / 10, 0, 0⟩⟩] = Vec3.zero :=
      getSeparationCorrection_single_far _ _ (by
        rw [withinDistance_iff_sq _ _ _ (by norm_num [SEPARATION_RADIUS])]
        simp [Vec3.normSq, SEPARATION_RADIUS]
        norm_num)
    have hcoh : getCoherenceCorrection ⟨1, ⟨20, 0, 0⟩, ⟨0, 0, 0⟩⟩
        [⟨0, ⟨11 / 10, 0, 0⟩, ⟨11 / 10, 0, 0⟩⟩]
        = COHESION_FACTOR • ((⟨11 / 10, 0, 0⟩ : Vec3) - (⟨20, 0, 0⟩ : Vec3)) :=
      getCoherenceCorrection_single_near _ _ (by
        rw [withinDistance_iff_sq _ _ _ (by norm_num [COHESION_RADIUS])]
        simp [Vec3.normSq, COHESION_RADIUS]
        norm_num)
    have hbnd : getBoundsCorrection ⟨1, ⟨20, 0, 0⟩, ⟨0, 0, 0⟩⟩ = Vec3.zero :=
      getBoundsCorrection_of_inside _ (by norm_num [X_LIM]) (by norm_num [X_LIM])
        (by norm_num [Y_LIM]) (by norm_num [Y_LIM])
        (by norm_num [Z_LIM]) (by norm_num [Z_LIM])
    have hnoise : getNoiseAlignmentCorrections ⟨1, ⟨20, 0, 0⟩, ⟨0, 0, 0⟩⟩
        [⟨0, ⟨11 / 10, 0, 0⟩, ⟨11 / 10, 0, 0⟩⟩]
        (fun j => if j = 0 then ⟨11 / 10, 0, 0⟩ else ⟨1 / 2, 0, 0⟩) ⟨⟨1, 0, 0⟩, 0⟩
        = Vec3.zero :=
      getNoiseAlignmentCorrections_single_aligned _ _ _ _
        (by
          rw [withinDistance_iff_sq _ _ _ (by norm_num [ALIGNMENT_RADIUS])]
          simp [Vec3.normSq, ALIGNMENT_RADIUS]
          norm_num)
        (angleTo_parallel_pos_x (1 / 2) (11 / 10) (by norm_num) (by norm_num))
    unfold getNewVelocity
    rw [hsep, getAlignmentCorrection_eq_zero, hcoh, hbnd, hnoise]
    exact clampLength_eval_eq _ _
      (by rw [Vec3.ext_iff']; simp [COHESION_FACTOR]; norm_num)
      (by
        rw [Vec3.length_le_iff _ _ (by norm_num [VELOCITY_LIM])]
        simp [Vec3.normSq]
        norm_num [VELOCITY_LIM])
  have hpair := updatePositions_pair_snd ⟨0, ⟨0, 0, 0⟩, ⟨0, 0, 0⟩⟩ ⟨1, ⟨20, 0, 0⟩, ⟨0, 0, 0⟩⟩
    (fun _ => ⟨1 / 2, 0, 0⟩) (fun _ => ⟨⟨1, 0, 0⟩, 0⟩) (by decide)
  simp only [hnv0,
    show (⟨0, 0, 0⟩ : Vec3) + ⟨11 / 10, 0, 0⟩ = ⟨11 / 10, 0, 0⟩ from by
      rw [Vec3.ext_iff']; norm_num] at hpair
  rw [hnv1] at hpair
  exact hpair

theorem snap_pair_velocity_eval :
    (updatePositionsSnapshot [⟨0, ⟨0, 0, 0⟩, ⟨0, 0, 0⟩⟩, ⟨1, ⟨20, 0, 0⟩, ⟨0, 0, 0⟩⟩]
        (fun _ => ⟨1 / 2, 0, 0⟩) (fun _ => ⟨⟨1, 0, 0⟩, 0⟩)).2 1
      = ⟨-1 / 10, 0, 0⟩ := by
  have hnv1 : getNewVelocity ⟨1, ⟨20, 0, 0⟩, ⟨0, 0, 0⟩⟩ [⟨0, ⟨0, 0, 0⟩, ⟨0, 0, 0⟩⟩]
      (fun _ => ⟨1 / 2, 0, 0⟩) ⟨⟨1, 0, 0⟩, 0⟩ = ⟨-1 / 10, 0, 0⟩ := by
    have hsep : getSeparationCorrection ⟨1, ⟨20, 0, 0⟩, ⟨0, 0, 0⟩⟩
        [⟨0, ⟨0, 0, 0⟩, ⟨0, 0, 0⟩⟩] = Vec3.zero :=
      getSeparationCorrection_single_far _ _ (by
        rw [withinDistance_iff_sq _ _ _ (by norm_num [SEPARATION_RADIUS])]
        simp [Vec3.normSq, SEPARATION_RADIUS]
        norm_num)
    have hcoh : getCoherenceCorrection ⟨1, ⟨20, 0, 0⟩, ⟨0, 0, 0⟩⟩
        [⟨0, ⟨0, 0, 0⟩, ⟨0, 0, 0⟩⟩]
        = COHESION_FACTOR • ((⟨0, 0, 0⟩ : Vec3) - (⟨20, 0, 0⟩ : Vec3)) :=
      getCoherenceCorrection_single_near _ _ (by
        rw [withinDistance_iff_sq _ _ _ (by norm_num [COHESION_RADIUS])]
        simp [Vec3.normSq, COHESION_RADIUS]
        norm_num)
    have hbnd : getBoundsCorrection ⟨1, ⟨20, 0, 0⟩, ⟨0, 0, 0⟩⟩ = Vec3.zero :=
      getBoundsCorrection_of_inside _ (by norm_num [X_LIM]) (by norm_num [X_LIM])
        (by norm_num [Y_LIM]) (by norm_num [Y_LIM])
        (by norm_num [Z_LIM]) (by norm_num [Z_LIM])
    have hnoise : getNoiseAlignmentCorrections ⟨1, ⟨20, 0, 0⟩, ⟨0, 0, 0⟩⟩
        [⟨0, ⟨0, 0, 0⟩, ⟨0, 0, 0⟩⟩] (fun _ => ⟨1 / 2, 0, 0⟩) ⟨⟨1, 0, 0⟩, 0⟩ = Vec3.zero :=
      getNoiseAlignmentCorrections_single_aligned _ _ _ _
        (by
          rw [withinDistance_iff_sq _ _ _ (by norm_num [ALIGNMENT_RADIUS])]
          simp [Vec3.normSq, ALIGNMENT_RADIUS]
          norm_num)
        (angleTo_parallel_pos_x (1 / 2) (1 / 2) (by norm_num) (by norm_num))
    unfold getNewVelocity
    rw [hsep, getAlignmentCorrection_eq_zero, hcoh, hbnd, hnoise]
    exact clampLength_eval_eq _ _
      (by rw [Vec3.ext_iff']; simp [COHESION_FACTOR]; norm_num)
      (by
        rw [Vec3.length_le_iff _ _ (by norm_num [VELOCITY_LIM])]
        simp [Vec3.normSq]
        norm_num [VELOCITY_LIM])
  have hpair := updatePositionsSnapshot_pair_snd ⟨0, ⟨0, 0, 0⟩, ⟨0, 0, 0⟩⟩
    ⟨1, ⟨20, 0, 0⟩, ⟨0, 0, 0⟩⟩ (fun _ => ⟨1 / 2, 0, 0⟩) (fun _ => ⟨⟨1, 0, 0⟩, 0⟩) (by decide)
  rw [hnv1] at hpair
  exact hpair

/-- Claim C2 counterexample: two agents with ids 0 and 1 at `(0,0,0)` and
`(20,0,0)`, both with velocity `(1/2, 0, 0)` (so every noise draw is unused:
each agent stays aligned).  The in-place step commits agent 1's velocity as
`(-67/1000, 0, 0)` — its cohesion correction reads agent 0's ALREADY UPDATED
position `(11/10, 0, 0)` — while the snapshot step commits `(-1/10, 0, 0)`
from agent 0's pre-step position, so the two steps differ. -/
theorem sequential_vs_snapshot_counterexample :
    updatePositions [⟨0, ⟨0, 0, 0⟩, ⟨0, 0, 0⟩⟩, ⟨1, ⟨20, 0, 0⟩, ⟨0, 0, 0⟩⟩]
        (fun _ => ⟨1 / 2, 0, 0⟩) (fun _ => ⟨⟨1, 0, 0⟩, 0⟩)
      ≠ updatePositionsSnapshot [⟨0, ⟨0, 0, 0⟩, ⟨0, 0, 0⟩⟩, ⟨1, ⟨20, 0, 0⟩, ⟨0, 0, 0⟩⟩]
        (fun _ => ⟨1 / 2, 0, 0⟩) (fun _ => ⟨⟨1, 0, 0⟩, 0⟩) := by
  intro heq
  have h1 := seq_pair_velocity_eval
  rw [heq, snap_pair_velocity_eval, Vec3.ext_iff'] at h1
  norm_num at h1

/-- Claim C2 (amended): the step is computed sequentially in place, not from
an immutable pre-step snapshot.  For a single-agent list the in-place and
snapshot steps coincide; in a two-agent list the first agent is computed from
the pre-step state, while the second agent's committed velocity is computed
from the state in which the first agent's position and velocity are ALREADY
updated (in-place semantics) — under the snapshot semantics it would instead
be computed from the untouched pre-step first agent. -/
theorem sequential_in_place_update (a b : Insect) (vels : ℕ → Vec3) (draws : ℕ → Draw)
    (hab : a.id ≠ b.id) :
    updatePositions [a] vels draws = updatePositionsSnapshot [a] vels draws
    ∧ (updatePositions [a, b] vels draws).2 b.id
        = getNewVelocity b
            [{ a with
                position := a.position + getNewVelocity a [b] vels (draws 0),
                orientation := a.position + getNewVelocity a [b] vels (draws 0) }]
            (fun j => if j = a.id then getNewVelocity a [b] vels (draws 0) else vels j)
            (draws 1)
    ∧ (updatePositionsSnapshot [a, b] vels draws).2 b.id
        = getNewVelocity b [a] vels (draws 1) :=
  ⟨updatePositions_singleton_eq_snapshot a vels draws,
   updatePositions_pair_snd a b vels draws hab,
   updatePositionsSnapshot_pair_snd a b vels draws hab⟩

/-- Witness for C2 (amended), at the counterexample's concrete input. -/
theorem sequential_in_place_update_witness :
    updatePositions [⟨0, ⟨0, 0, 0⟩, ⟨0, 0, 0⟩⟩] (fun _ => ⟨1 / 2, 0, 0⟩)
          (fun _ => ⟨⟨1, 0, 0⟩, 0⟩)
        = updatePositionsSnapshot [⟨0, ⟨0, 0, 0⟩, ⟨0, 0, 0⟩⟩] (fun _ => ⟨1 / 2, 0, 0⟩)
          (fun _ => ⟨⟨1, 0, 0⟩, 0⟩)
    ∧ (updatePositions [⟨0, ⟨0, 0, 0⟩, ⟨0, 0, 0⟩⟩, ⟨1, ⟨20, 0, 0⟩, ⟨0, 0, 0⟩⟩]
          (fun _ => ⟨1 / 2, 0, 0⟩) (fun _ => ⟨⟨1, 0, 0⟩, 0⟩)).2
          (⟨1, ⟨20, 0, 0⟩, ⟨0, 0, 0⟩⟩ : Insect).id
        = getNewVelocity ⟨1, ⟨20, 0, 0⟩, ⟨0, 0, 0⟩⟩
            [{ (⟨0, ⟨0, 0, 0⟩, ⟨0, 0, 0⟩⟩ : Insect) with
                position := (⟨0, ⟨0, 0, 0⟩, ⟨0, 0, 0⟩⟩ : Insect).position
                  + getNewVelocity ⟨0, ⟨0, 0, 0⟩, ⟨0, 0, 0⟩⟩ [⟨1, ⟨20, 0, 0⟩, ⟨0, 0, 0⟩⟩]
                      (fun _ => ⟨1 / 2, 0, 0⟩) ((fun _ => (⟨⟨1, 0, 0⟩, 0⟩ : Draw)) 0),
                orientation := (⟨0, ⟨0, 0, 0⟩, ⟨0, 0, 0⟩⟩ : Insect).position
                  + getNewVelocity ⟨0, ⟨0, 0, 0⟩, ⟨0, 0, 0⟩⟩ [⟨1, ⟨20, 0, 0⟩, ⟨0, 0, 0⟩⟩]
                      (fun _ => ⟨1 / 2, 0, 0⟩) ((fun _ => (⟨⟨1, 0, 0⟩, 0⟩ : Draw)) 0) }]
            (fun j => if j = (⟨0, ⟨0, 0, 0⟩, ⟨0, 0, 0⟩⟩ : Insect).id
              then getNewVelocity ⟨0, ⟨0, 0, 0⟩, ⟨0, 0, 0⟩⟩ [⟨1, ⟨20, 0, 0⟩, ⟨0, 0, 0⟩⟩]
                     (fun _ => ⟨1 / 2, 0, 0⟩) ((fun _ => (⟨⟨1, 0, 0⟩, 0⟩ : Draw)) 0)
              else (fun _ => (⟨1 / 2, 0, 0⟩ : Vec3)) j)
            ((fun _ => (⟨⟨1, 0, 0⟩, 0⟩ : Draw)) 1)
    ∧ (updatePositionsSnapshot [⟨0, ⟨0, 0, 0⟩, ⟨0, 0, 0⟩⟩, ⟨1, ⟨20, 0, 0⟩, ⟨0, 0, 0⟩⟩]
          (fun _ => ⟨1 / 2, 0, 0⟩) (fun _ => ⟨⟨1, 0, 0⟩, 0⟩)).2
          (⟨1, ⟨20, 0, 0⟩, ⟨0, 0, 0⟩⟩ : Insect).id
        = getNewVelocity ⟨1, ⟨20, 0, 0⟩, ⟨0, 0, 0⟩⟩ [⟨0, ⟨0, 0, 0⟩, ⟨0, 0, 0⟩⟩]
            (fun _ => ⟨1 / 2, 0, 0⟩) ((fun _ => (⟨⟨1, 0, 0⟩, 0⟩ : Draw)) 1) :=
  sequential_in_place_update ⟨0, ⟨0, 0, 0⟩, ⟨0, 0, 0⟩⟩ ⟨1, ⟨20, 0, 0⟩, ⟨0, 0, 0⟩⟩
    (fun _ => ⟨1 / 2, 0, 0⟩) (fun _ => ⟨⟨1, 0, 0⟩, 0⟩) (by decide)

/-- Claim C8: once the step counter has exhausted the step budget `STEPS`,
every further `animate` call is a no-op: the whole state — every agent's
position, orientation and velocity, and the counter — stays unchanged. -/
theorem halted_step_noop (draws : ℕ → ℕ → Draw) (s : SimState)
    (h : STEPS ≤ s.stepCounter) : ∀ n, runSim draws n s = s := by
  have hstep : animateStep draws s = s := by
    unfold animateStep
    rw [if_neg (not_lt.mpr h)]
  intro n
  induction n with
  | zero => rfl
  | succ n ih =>
    rw [show runSim draws (n + 1) s = runSim draws n (animateStep draws s) from rfl,
      hstep, ih]

/-- Witness for C8: a halted state (counter at the budget `STEPS`) is left
unchanged by three further calls. -/
theorem halted_step_noop_witness :
    runSim (fun _ _ => ⟨⟨1, 0, 0⟩, 0⟩) 3 ⟨[], fun _ => Vec3.zero, STEPS⟩
      = ⟨[], fun _ => Vec3.zero, STEPS⟩ :=
  halted_step_noop (fun _ _ => ⟨⟨1, 0, 0⟩, 0⟩) ⟨[], fun _ => Vec3.zero, STEPS⟩
    (le_refl STEPS) 3

/-- Claim C9: determinism.  With the random source made explicit and seeded
(spec §9), a run is a pure function of the seed: two runs with the same seed
produce identical agent states at every step; and one `animate` call reads
nothing of the random source beyond the current step's draws — two draw
streams that agree on the current step index produce identical steps. -/
theorem seeded_determinism (initRng : ℕ → ℕ → ℕ → ℝ) (noiseRng : ℕ → ℕ → ℕ → Draw)
    (seed1 seed2 : ℕ) (h : seed1 = seed2) :
    (∀ n, (runSim (noiseRng seed1) n (initializeSim (initRng seed1))).insects
        = (runSim (noiseRng seed2) n (initializeSim (initRng seed2))).insects
      ∧ (runSim (noiseRng seed1) n (initializeSim (initRng seed1))).insectVelocities
        = (runSim (noiseRng seed2) n (initializeSim (initRng seed2))).insectVelocities)
    ∧ (∀ (draws1 draws2 : ℕ → ℕ → Draw) (st : SimState),
        draws1 st.stepCounter = draws2 st.stepCounter →
        animateStep draws1 st = animateStep draws2 st) := by
  subst h
  refine ⟨fun n => ⟨rfl, rfl⟩, ?_⟩
  intro d1 d2 st hd
  unfold animateStep
  by_cases hc : st.stepCounter < STEPS
  · rw [if_pos hc, if_pos hc, hd]
  · rw [if_neg hc, if_neg hc]

/-- Witness for C9 at seed 0 and concrete random sources, after five steps. -/
theorem seeded_determinism_witness :
    (runSim ((fun _ _ _ => ⟨⟨1, 0, 0⟩, 0⟩) 0) 5
        (initializeSim ((fun _ _ _ => (0 : ℝ)) 0))).insects
      = (runSim ((fun _ _ _ => ⟨⟨1, 0, 0⟩, 0⟩) 0) 5
        (initializeSim ((fun _ _ _ => (0 : ℝ)) 0))).insects :=
  ((seeded_determinism (fun _ _ _ => (0 : ℝ)) (fun _ _ _ => ⟨⟨1, 0, 0⟩, 0⟩) 0 0 rfl).1 5).1

theorem list_set_self {α : Type _} (l : List α) (k : ℕ) (a : α) (h : l[k]? = some a) :
    l.set k a = l := by
  have hlt : k < l.length := by
    rcases List.getElem?_eq_some_iff.mp h with ⟨hl, -⟩
    exact hl
  apply List.ext_getElem?
  intro n
  by_cases hn : k = n
  · subst hn
    rw [List.getElem?_set_self hlt, h]
  · rw [List.getElem?_set_ne hn]

theorem updateInsect_none (draws : ℕ → Draw) (st : List Insect × (ℕ → Vec3)) (k : ℕ)
    (h : st.1[k]? = none) : updateInsect draws st k = st := by
  unfold updateInsect
  rw [h]

theorem updateInsect_map_id (draws : ℕ → Draw) (st : List Insect × (ℕ → Vec3)) (k : ℕ) :
    (updateInsect draws st k).1.map Insect.id = st.1.map Insect.id := by
  cases hk : st.1[k]? with
  | none => rw [updateInsect_none draws st k hk]
  | some insect =>
    rw [updateInsect_eq draws st k insect hk]
    show ((st.1.set k _).map Insect.id) = st.1.map Insect.id
    rw [List.map_set]
    apply list_set_self
    rw [List.getElem?_map, hk]
    rfl

theorem getNewVelocity_is_clamped (insect : Insect) (insectList : List Insect)
    (vels : ℕ → Vec3) (d : Draw) :
    ∃ u, getNewVelocity insect insectList vels d = Vec3.clampLength u 0 VELOCITY_LIM :=
  ⟨_, rfl⟩

theorem updateInsect_snd_cases (draws : ℕ → Draw) (st : List Insect × (ℕ → Vec3))
    (k j : ℕ) :
    (updateInsect draws st k).2 j = st.2 j
    ∨ ∃ u, (updateInsect draws st k).2 j = Vec3.clampLength u 0 VELOCITY_LIM := by
  cases hk : st.1[k]? with
  | none => left; rw [updateInsect_none draws st k hk]
  | some insect =>
    rw [updateInsect_eq draws st k insect hk]
    by_cases hj : j = insect.id
    · right
      rcases getNewVelocity_is_clamped insect
        (st.1.filter fun i => decide (i.id ≠ insect.id)) st.2 (draws k) with ⟨u, hu⟩
      refine ⟨u, ?_⟩
      change (if j = insect.id then _ else _) = _
      rw [if_pos hj]
      exact hu
    · left
      change (if j = insect.id then _ else _) = _
      rw [if_neg hj]

theorem updateInsect_writes_clamped (draws : ℕ → Draw) (st : List Insect × (ℕ → Vec3))
    (k : ℕ) (insect : Insect) (hk : st.1[k]? = some insect) :
    ∃ u, (updateInsect draws st k).2 insect.id = Vec3.clampLength u 0 VELOCITY_LIM := by
  rw [updateInsect_eq draws st k insect hk]
  rcases getNewVelocity_is_clamped insect
    (st.1.filter fun i => decide (i.id ≠ insect.id)) st.2 (draws k) with ⟨u, hu⟩
  refine ⟨u, ?_⟩
  change (if insect.id = insect.id then _ else _) = _
  rw [if_pos rfl]
  exact hu

theorem foldl_updateInsect_map_id (draws : ℕ → Draw) (ks : List ℕ)
    (st : List Insect × (ℕ → Vec3)) :
    (ks.foldl (updateInsect draws) st).1.map Insect.id = st.1.map Insect.id := by
  induction ks generalizing st with
  | nil => rfl
  | cons k ks ih =>
    rw [List.foldl_cons, ih, updateInsect_map_id]

theorem foldl_updateInsect_preserves_clamped (draws : ℕ → Draw) (ks : List ℕ)
    (st : List Insect × (ℕ → Vec3)) (j : ℕ)
    (h : ∃ u, st.2 j = Vec3.clampLength u 0 VELOCITY_LIM) :
    ∃ u, (ks.foldl (updateInsect draws) st).2 j = Vec3.clampLength u 0 VELOCITY_LIM := by
  induction ks generalizing st with
  | nil => exact h
  | cons k ks ih =>
    rw [List.foldl_cons]
    apply ih
    rcases updateInsect_snd_cases draws st k j with h2 | h2
    · rw [h2]; exact h
    · exact h2

theorem foldl_updateInsect_clamped_at (draws : ℕ → Draw) (ks : List ℕ)
    (st : List Insect × (ℕ → Vec3)) (k j : ℕ)
    (hmem : k ∈ ks) (hj : (st.1.map Insect.id)[k]? = some j) :
    ∃ u, (ks.foldl (updateInsect draws) st).2 j = Vec3.clampLength u 0 VELOCITY_LIM := by
  induction ks generalizing st with
  | nil => exact absurd hmem (List.not_mem_nil k)
  | cons k' ks ih =>
    rw [List.foldl_cons]
    rcases List.mem_cons.mp hmem with rfl | hmem'
    · apply foldl_updateInsect_preserves_clamped
      have hsome : ∃ insect, st.1[k]? = some insect ∧ insect.id = j := by
        rw [List.getElem?_map] at hj
        rcases Option.map_eq_some'.mp hj with ⟨insect, hin, hid⟩
        exact ⟨insect, hin, hid⟩
      rcases hsome with ⟨insect, hk2, hid⟩
      rcases updateInsect_writes_clamped draws st k insect hk2 with ⟨u, hu⟩
      exact ⟨u, hid ▸ hu⟩
    · exact ih (updateInsect draws st k') hmem'
        (by rw [updateInsect_map_id]; exact hj)

/-- Claim C3: after a step commits, every agent's stored velocity has
magnitude at most `VELOCITY_LIM` (each committed velocity is an output of the
clamp in `getNewVelocity`); and the clamp rescales a vector of magnitude
above `VELOCITY_LIM` down to exactly `VELOCITY_LIM` while leaving one of
magnitude within the range untouched. -/
theorem velocity_clamp_invariant (l : List Insect) (vels : ℕ → Vec3) (draws : ℕ → Draw)
    (insect : Insect) (v : Vec3)
    (hmem : insect ∈ (updatePositions l vels draws).1) :
    ((updatePositions l vels draws).2 insect.id).length ≤ VELOCITY_LIM
    ∧ (v.length ≤ VELOCITY_LIM → v.clampLength 0 VELOCITY_LIM = v)
    ∧ (VELOCITY_LIM < v.length → (v.clampLength 0 VELOCITY_LIM).length = VELOCITY_LIM) := by
  refine ⟨?_, fun h => Vec3.clampLength_of_le v VELOCITY_LIM h,
    fun h => Vec3.length_clampLength_eq v VELOCITY_LIM (by norm_num [VELOCITY_LIM]) h⟩
  have hidmem : insect.id ∈ (updatePositions l vels draws).1.map Insect.id :=
    List.mem_map_of_mem Insect.id hmem
  have hfold : (updatePositions l vels draws).1.map Insect.id = l.map Insect.id :=
    foldl_updateInsect_map_id draws (List.range l.length) (l, vels)
  rw [hfold] at hidmem
  rcases List.mem_iff_getElem?.mp hidmem with ⟨k, hk⟩
  have hklt : k < l.length := by
    rcases List.getElem?_eq_some_iff.mp hk with ⟨hl, -⟩
    rw [List.length_map] at hl
    exact hl
  rcases foldl_updateInsect_clamped_at draws (List.range l.length) (l, vels) k insect.id
    (List.mem_range.mpr hklt) hk with ⟨u, hu⟩
  rw [show (updatePositions l vels draws).2
      = ((List.range l.length).foldl (updateInsect draws) (l, vels)).2 from rfl, hu]
  exact Vec3.length_clampLength_le u VELOCITY_LIM (by norm_num [VELOCITY_LIM])

/-- Witness for C3: a single agent at the origin with zero velocity and a
zero-magnitude noise draw; its committed velocity obeys the limit, a vector
of norm 1 is left untouched by the clamp, and a vector of norm 2 is rescaled
to norm exactly `VELOCITY_LIM`. -/
theorem velocity_clamp_invariant_witness :
    ((updatePositions [⟨0, ⟨0, 0, 0⟩, ⟨0, 0, 0⟩⟩] (fun _ => Vec3.zero)
          (fun _ => ⟨⟨1, 0, 0⟩, 0⟩)).2
        ({ (⟨0, ⟨0, 0, 0⟩, ⟨0, 0, 0⟩⟩ : Insect) with
            position := (⟨0, ⟨0, 0, 0⟩, ⟨0, 0, 0⟩⟩ : Insect).position
              + getNewVelocity ⟨0, ⟨0, 0, 0⟩, ⟨0, 0, 0⟩⟩ [] (fun _ => Vec3.zero)
                  ((fun _ => (⟨⟨1, 0, 0⟩, 0⟩ : Draw)) 0),
            orientation := (⟨0, ⟨0, 0, 0⟩, ⟨0, 0, 0⟩⟩ : Insect).position
              + getNewVelocity ⟨0, ⟨0, 0, 0⟩, ⟨0, 0, 0⟩⟩ [] (fun _ => Vec3.zero)
                  ((fun _ => (⟨⟨1, 0, 0⟩, 0⟩ : Draw)) 0) } : Insect).id).length
      ≤ VELOCITY_LIM
    ∧ ((⟨1, 0, 0⟩ : Vec3).length ≤ VELOCITY_LIM →
        Vec3.clampLength ⟨1, 0, 0⟩ 0 VELOCITY_LIM = ⟨1, 0, 0⟩)
    ∧ (VELOCITY_LIM < (⟨1, 0, 0⟩ : Vec3).length →
        (Vec3.clampLength ⟨1, 0, 0⟩ 0 VELOCITY_LIM).length = VELOCITY_LIM) :=
  velocity_clamp_invariant [⟨0, ⟨0, 0, 0⟩, ⟨0, 0, 0⟩⟩] (fun _ => Vec3.zero)
    (fun _ => ⟨⟨1, 0, 0⟩, 0⟩) _ ⟨1, 0, 0⟩
    (by
      rw [updatePositions_singleton]
      exact List.mem_singleton.mpr rfl)

/-- Claim C6: as composed in `updatePositions` (self removed by id, then
filtered by distance), the neighbor query returns exactly the agents of the
list other than the queried one whose Euclidean distance to it is at most
`r` (boundary included, self excluded); under unique ids the result has no
duplicates; and the within-radius relation is symmetric. -/
theorem neighbor_query_spec (a b : Insect) (S : List Insect) (r : ℝ) (hr : 0 ≤ r) :
    (b ∈ getInsectsWithinDistance a (S.filter fun i => decide (i.id ≠ a.id)) r
      ↔ b ∈ S ∧ b.id ≠ a.id ∧ a.position.distanceTo b.position ≤ r)
    ∧ ((S.map Insect.id).Nodup →
        ((getInsectsWithinDistance a (S.filter fun i => decide (i.id ≠ a.id)) r).map
          Insect.id).Nodup)
    ∧ (withinDistance a b r ↔ withinDistance b a r) := by
  refine ⟨?_, ?_, ?_⟩
  · rw [mem_getInsectsWithinDistance]
    simp only [List.mem_filter, decide_eq_true_eq]
    unfold withinDistance
    tauto
  · intro hnodup
    have hsub : (getInsectsWithinDistance a (S.filter fun i => decide (i.id ≠ a.id)) r).Sublist
        S := by
      unfold getInsectsWithinDistance
      exact (List.filter_sublist _).trans (List.filter_sublist _)
    exact List.Nodup.sublist (hsub.map Insect.id) hnodup
  · unfold withinDistance Vec3.distanceTo Vec3.length
    rw [show (a.position - b.position).normSq = (b.position - a.position).normSq from by
      simp [Vec3.normSq]; ring]

/-- Witness for C6: the agent with id 1 at `(3,4,0)` (distance 5) is in the
radius-70 neighbor query of the agent with id 0 at the origin. -/
theorem neighbor_query_spec_witness :
    (⟨1, ⟨3, 4, 0⟩, Vec3.zero⟩ : Insect) ∈ getInsectsWithinDistance
      ⟨0, ⟨0, 0, 0⟩, Vec3.zero⟩
      (([⟨0, ⟨0, 0, 0⟩, Vec3.zero⟩, ⟨1, ⟨3, 4, 0⟩, Vec3.zero⟩] : List Insect).filter
        fun i => decide (i.id ≠ (⟨0, ⟨0, 0, 0⟩, Vec3.zero⟩ : Insect).id)) 70 := by
  have h := (neighbor_query_spec ⟨0, ⟨0, 0, 0⟩, Vec3.zero⟩ ⟨1, ⟨3, 4, 0⟩, Vec3.zero⟩
    [⟨0, ⟨0, 0, 0⟩, Vec3.zero⟩, ⟨1, ⟨3, 4, 0⟩, Vec3.zero⟩] 70 (by norm_num)).1
  refine h.mpr ⟨by simp, by decide, ?_⟩
  unfold Vec3.distanceTo
  rw [Vec3.length_le_iff _ _ (by norm_num)]
  simp [Vec3.normSq]
  norm_num

end

end BoidSim
